import Mathlib

/-!
Verification of the entity-motion and label-layout engine shared by the
animated-background effects in this repository (src/js/ai-bg-canvas.js,
src/js/blob-tracker.js, src/js/ai-bg-three.js).  JavaScript numbers are
modelled as exact rationals, uint32 bit-mixing as natural numbers reduced
modulo 2^32, and host-supplied inputs (measured text widths, the value of
Math.sin, the Math.random entropy stream, wall-clock times) as explicit
parameters.
-/

namespace Spec2Proof

/-- modulus 2^32 used for JavaScript unsigned 32-bit arithmetic. -/
def M32 : Nat := 4294967296

/-- increment added to the mulberry32 internal state on every call. -/
def mbDelta : Nat := 0x6D2B79F5

/-- one call of the mulberry32 generator (ai-bg-canvas.js lines 385-392,
ai-bg-three.js lines 283-290): takes the current internal state, a uint32,
and returns the incremented state together with the produced sample, the
exact rational u / 2^32 where u is the final 32-bit mix. -/
def mulberryStep (s : Nat) : Nat × Rat :=
  let s1 := (s + mbDelta) % M32
  let t1 := ((s1 ^^^ (s1 >>> 15)) * (s1 ||| 1)) % M32
  let t2 := t1 ^^^ ((t1 + ((t1 ^^^ (t1 >>> 7)) * (t1 ||| 61)) % M32) % M32)
  let u := t2 ^^^ (t2 >>> 14)
  (s1, (u : Rat) / (M32 : Rat))

/-- sample produced by one mulberry32 call starting from state s. -/
def mulberryOut (s : Nat) : Rat := (mulberryStep s).2

/-- the clamp helper shared by all three files:
clamp(v, a, b) = Math.max(a, Math.min(b, v)). -/
def clamp (v a b : Rat) : Rat := max a (min b v)

/-- integer clamp, used for lane counts and the per-lane blob count. -/
def clampI (v a b : Int) : Int := max a (min b v)

/-- JavaScript Math.round on a rational: floor(q + 1/2). -/
def jround (q : Rat) : Int := ⌊q + 1 / 2⌋

/-- helper that draws one sample and maps it affinely onto [a, b):
randRange(a, b) = a + (b - a) * RNG() from ai-bg-canvas.js line 378. -/
def randRangeM (a b : Rat) (s : Nat) : Nat × Rat :=
  let q := mulberryStep s
  (q.1, a + (b - a) * q.2)

/-- tracked entity of ai-bg-canvas.js (fields of the object literal built in
initEntities, lines 82-91).  kind 0 is car, 1 is human, 2 is box, matching
the order of the classes array; sideRight true encodes side = right. -/
structure Entity where
  id : Nat
  kind : Nat
  x : Rat
  y : Rat
  w : Rat
  h : Rat
  vx : Rat
  vy : Rat
  conf : Rat
  sideRight : Bool
  laneIndex : Int
  deriving DecidableEq

/-- generation of one entity, ai-bg-canvas.js lines 58-91, threading the RNG
state through the nine draws in source order: class, two size draws, speed,
direction, vertical speed, x, y, confidence. -/
def genEntity (W H shortS : Rat) (i : Nat) (s : Nat) : Nat × Entity :=
  let q1 := mulberryStep s
  let kind := (⌊q1.2 * 3⌋).toNat
  let szp : Nat × Rat × Rat :=
    if kind = 0 then
      let qa := randRangeM (shortS * (8 / 100)) (shortS * (14 / 100)) q1.1
      let qb := randRangeM (38 / 100) (52 / 100) qa.1
      (qb.1, qa.2, qa.2 * qb.2)
    else if kind = 1 then
      let qa := randRangeM (shortS * (4 / 100)) (shortS * (65 / 1000)) q1.1
      let qb := randRangeM (21 / 10) (27 / 10) qa.1
      (qb.1, qa.2, qa.2 * qb.2)
    else
      let qa := randRangeM (shortS * (6 / 100)) (shortS * (10 / 100)) q1.1
      let qb := randRangeM (shortS * (6 / 100)) (shortS * (10 / 100)) qa.1
      (qb.1, qa.2, qb.2)
  let qs := randRangeM 34 70 szp.1
  let qr := mulberryStep qs.1
  let toRight := decide (qr.2 < 1 / 2)
  let qvy := randRangeM (-8) 8 qr.1
  let qx := mulberryStep qvy.1
  let qy := mulberryStep qx.1
  let qc := mulberryStep qy.1
  (qc.1,
   { id := i + 1, kind := kind,
     x := qx.2 * (W - szp.2.1), y := qy.2 * (H - szp.2.2),
     w := szp.2.1, h := szp.2.2,
     vx := if toRight then qs.2 else -qs.2, vy := qvy.2,
     conf := 84 / 100 + qc.2 * (12 / 100),
     sideRight := toRight, laneIndex := -1 })

/-- generation loop of initEntities: builds n entities with ids i+1, i+2, ...
threading the RNG state left to right. -/
def genEntitiesAux (W H shortS : Rat) : Nat → Nat → Nat → Nat × List Entity
  | s, _, 0 => (s, [])
  | s, i, n + 1 =>
    let p := genEntity W H shortS i s
    let q := genEntitiesAux W H shortS p.1 (i + 1) n
    (q.1, p.2 :: q.2)

/-- entity count of ai-bg-canvas.js line 55:
Math.round(clamp((W * H) / 50000, 18, 36)). -/
def entsCount (W H : Rat) : Nat := (jround (clamp (W * H / 50000) 18 36)).toNat

/-- initEntities of ai-bg-canvas.js lines 52-93: returns the advanced RNG
state and the freshly generated population (the source assigns it to the
module-level ents array). -/
def initEntities (s : Nat) (W H : Rat) : Nat × List Entity :=
  genEntitiesAux W H (min W H) s 0 (entsCount W H)

/-- lane of ai-bg-canvas.js: a fixed y with a per-frame usage counter
(makeLanes lines 95-107). -/
structure Lane where
  y : Rat
  used : Nat
  deriving DecidableEq

/-- makeLanes of ai-bg-canvas.js lines 95-107 (the same list is stored as
both lanesLeft and lanesRight). -/
def makeLanes (H : Rat) : List Lane :=
  let count := (clampI ⌊H / 120⌋ 6 12).toNat
  let spacing := (H - 36) / ((count : Rat) - 1)
  (List.range count).map (fun i => { y := (jround (18 + (i : Rat) * spacing) : Rat), used := 0 })

/-- scoring loop of nearestLaneIndex (ai-bg-canvas.js lines 356-365):
bd none models the initial bestD = Infinity. -/
def nearestLaneAux (y : Rat) : List Lane → Nat → Nat → Option Rat → Nat
  | [], _, best, _ => best
  | L :: rest, i, best, bd =>
    let d := |L.y - y| + (L.used : Rat) * 14
    let better := match bd with
      | none => true
      | some bdv => decide (d < bdv)
    if better then nearestLaneAux y rest (i + 1) i (some d)
    else nearestLaneAux y rest (i + 1) best bd

/-- nearestLaneIndex of ai-bg-canvas.js lines 356-365. -/
def nearestLaneIndex (set : List Lane) (y : Rat) : Nat := nearestLaneAux y set 0 0 none

/-- per-frame reset of the used counters (assignLanes lines 111-112). -/
def resetUsed (ls : List Lane) : List Lane := ls.map (fun L => { L with used := 0 })

/-- set[idx].used++ of assignLanes line 128. -/
def bumpUsed : List Lane → Nat → List Lane
  | [], _ => []
  | L :: rest, 0 => { L with used := L.used + 1 } :: rest
  | L :: rest, n + 1 => L :: bumpUsed rest n

/-- lane choice for one entity, assignLanes lines 116-126: a stale index is
replaced by the nearest lane, a congested lane (used > 1) is reconsidered. -/
def assignOne (e : Entity) (set : List Lane) : Nat :=
  if e.laneIndex < 0 ∨ (set.length : Int) ≤ e.laneIndex then nearestLaneIndex set e.y
  else
    match set.get? e.laneIndex.toNat with
    | some L => if 1 < L.used then nearestLaneIndex set e.y else e.laneIndex.toNat
    | none => e.laneIndex.toNat

/-- entity loop of assignLanes lines 114-129, threading both lane tables. -/
def assignLanesAux : List Entity → List Lane → List Lane → List Entity × List Lane × List Lane
  | [], lL, lR => ([], lL, lR)
  | e :: rest, lL, lR =>
    if e.sideRight then
      let i := assignOne e lR
      let r := assignLanesAux rest lL (bumpUsed lR i)
      ({ e with laneIndex := (i : Int) } :: r.1, r.2.1, r.2.2)
    else
      let i := assignOne e lL
      let r := assignLanesAux rest (bumpUsed lL i) lR
      ({ e with laneIndex := (i : Int) } :: r.1, r.2.1, r.2.2)

/-- assignLanes of ai-bg-canvas.js lines 109-130: reset both usage tables,
then assign every entity in list order. -/
def assignLanes (ents : List Entity) (lL lR : List Lane) :
    List Entity × List Lane × List Lane :=
  assignLanesAux ents (resetUsed lL) (resetUsed lR)

/-- label rectangle returned by layoutEdgeLabel. -/
structure LabelBox where
  x : Rat
  y : Rat
  w : Rat
  h : Rat
  deriving DecidableEq

/-- layoutEdgeLabel of ai-bg-canvas.js lines 330-340.  tw stands for the
measured (and ceiled) text width, an input from the host text engine. -/
def layoutEdgeLabel (tw : Rat) (sideRight : Bool) (W H laneY : Rat) : LabelBox :=
  let labelW := min (max (tw + 16) 80) (max 150 (W * (22 / 100)))
  { x := if sideRight then W - 12 - labelW else 12,
    y := (jround (clamp (laneY - 11) 8 (H - 30)) : Rat),
    w := labelW, h := 22 }

/-- lane lookup of the draw loop, ai-bg-canvas.js lines 222-223:
laneSet[e.laneIndex] with the nearest-lane fallback when the index misses
(an empty lane table, which makeLanes never produces, is totalized to a
synthetic lane at y = 0). -/
def laneOf (set : List Lane) (e : Entity) : Lane :=
  let direct := if e.laneIndex < 0 then none else set.get? e.laneIndex.toNat
  match direct with
  | some L => L
  | none => (set.get? (nearestLaneIndex set e.y)).getD { y := 0, used := 0 }

/-- label rectangle of one entity inside drawFrame (lines 220-225), with
meas the host text-measurement function. -/
def labelFor (W H : Rat) (meas : Entity → Rat) (lL lR : List Lane) (e : Entity) : LabelBox :=
  let set := if e.sideRight then lR else lL
  layoutEdgeLabel (⌈meas e⌉ : Rat) e.sideRight W H (laneOf set e).y

/-- elbow x of the leader line, ai-bg-canvas.js lines 227-233. -/
def canvasMidX (W H laneY tw : Rat) (e : Entity) : Rat :=
  let lab := layoutEdgeLabel tw e.sideRight W H laneY
  let anchorX := e.x + e.w * (1 / 2)
  let attachX := if e.sideRight then lab.x else lab.x + lab.w
  if e.sideRight then max (anchorX + 24) (attachX + 32)
  else min (anchorX - 24) (attachX - 32)

/-- horizontal wraparound of ai-bg-canvas.js lines 185-187, applied to the
already moved x.  The wrap target for a rightward mover is -w - margin. -/
def wrapX (W w vx x : Rat) : Rat :=
  let x2 := if 0 < vx ∧ W + 100 < x then -w - 100 else x
  if vx < 0 ∧ x2 + w < -100 then W + 100 else x2

/-- vertical wraparound of ai-bg-canvas.js lines 188-189. -/
def wrapY (H y : Rat) : Rat :=
  let y2 := if y < -100 then H + 100 else y
  if H + 100 < y2 then -100 else y2

/-- one-entity kinematic update of drawFrame, ai-bg-canvas.js lines 180-192,
with the sway term (Math.sin((x * 0.01) + id) * 10) and the confidence draw
supplied as inputs sway and u. -/
def canvasUpdateEntity (W H dt sway u : Rat) (e : Entity) : Entity :=
  { e with
    x := wrapX W e.w e.vx (e.x + e.vx * dt),
    y := wrapY H (e.y + (e.vy + sway) * dt),
    conf := clamp (e.conf + (u - 1 / 2) * (1 / 100)) (3 / 4) (49 / 50) }

/-- same update drawing its confidence perturbation from the module RNG and
computing sway through an abstract sine oracle sinQ. -/
def canvasUpdateEntityR (W H dt : Rat) (sinQ : Rat → Rat) (e : Entity) (s : Nat) :
    Nat × Entity :=
  let q := mulberryStep s
  (q.1, canvasUpdateEntity W H dt (sinQ (e.x * (1 / 100) + (e.id : Rat)) * 10) q.2 e)

/-- threading of a stateful one-element update over a list. -/
def mapWithState {α β : Type} (f : α → Nat → Nat × β) : List α → Nat → Nat × List β
  | [], s => (s, [])
  | a :: as, s =>
    let p := f a s
    let q := mapWithState f as p.1
    (q.1, p.2 :: q.2)

/-- module state of ai-bg-canvas.js relevant to one frame: RNG closure state
and entity list. -/
structure CState where
  rng : Nat
  ents : List Entity
  deriving DecidableEq

/-- kinematic part of drawFrame (lines 179-194): entities advance only when
dt > 0. -/
def canvasFrameKin (W H dt : Rat) (sinQ : Rat → Rat) (st : CState) : CState :=
  if 0 < dt then
    let p := mapWithState (canvasUpdateEntityR W H dt sinQ) st.ents st.rng
    { rng := p.1, ents := p.2 }
  else st

/-- one full frame of the ai-bg-canvas pipeline: kinematic update, lane
assignment over fresh lane tables for the viewport, then edge-label layout
for every entity (drawFrame lines 179-254). -/
def canvasStep (W H : Rat) (sinQ : Rat → Rat) (meas : Entity → Rat) (dt : Rat)
    (st : CState) : CState × List LabelBox :=
  let st1 := canvasFrameKin W H dt sinQ st
  let lanes := makeLanes H
  let r := assignLanes st1.ents lanes lanes
  ({ rng := st1.rng, ents := r.1 }, r.1.map (labelFor W H meas r.2.1 r.2.2))

/-- frame loop over a list of time deltas, collecting the entity states and
label layouts of every frame. -/
def runCanvasAux (W H : Rat) (sinQ : Rat → Rat) (meas : Entity → Rat) :
    CState → List Rat → List (List Entity × List LabelBox)
  | _, [] => []
  | st, dt :: rest =>
    let p := canvasStep W H sinQ meas dt st
    (p.1.ents, p.2) :: runCanvasAux W H sinQ meas p.1 rest

/-- full seeded pipeline of ai-bg-canvas.js: generate the population from
the RNG seed, then run one frame per element of dts.  Every random draw of
generation and update comes from the single seeded mulberry32 stream. -/
def runCanvas (sinQ : Rat → Rat) (meas : Entity → Rat) (seed : Nat) (W H : Rat)
    (dts : List Rat) : List (List Entity × List LabelBox) :=
  let p := initEntities seed W H
  runCanvasAux W H sinQ meas { rng := p.1, ents := p.2 } dts

/-- module state of ai-bg-canvas.js touched by the resize path. -/
structure ModState where
  rng : Nat
  ents : List Entity
  lanesL : List Lane
  lanesR : List Lane
  deriving DecidableEq

/-- sizeCanvases of ai-bg-canvas.js lines 132-148: rebuild both lane tables
and generate the population only when it is still empty. -/
def sizeCanvases (W H : Rat) (st : ModState) : ModState :=
  let lanes := makeLanes H
  let st1 : ModState := { st with lanesL := lanes, lanesR := lanes }
  if st1.ents.length = 0 then
    let p := initEntities st1.rng W H
    { st1 with rng := p.1, ents := p.2 }
  else st1

/-- debounced resize listener of ai-bg-canvas.js lines 151-156: sizeCanvases
followed by an unconditional initEntities call. -/
def resizeHandler (W H : Rat) (st : ModState) : ModState :=
  let st1 := sizeCanvases W H st
  let p := initEntities st1.rng W H
  { st1 with rng := p.1, ents := p.2 }

/-- module state at script load: seeded RNG, no entities, no lanes. -/
def bootState : ModState := { rng := 0xA11A11, ents := [], lanesL := [], lanesR := [] }

/-- lane of blob-tracker.js (makeLanes lines 63-74): fixed y, direction and
base speed. -/
structure BLane where
  y : Rat
  dir : Int
  speed : Rat
  deriving DecidableEq

/-- makeLanes of blob-tracker.js lines 63-74. -/
def makeLanesB (H : Rat) : List BLane :=
  let count := (clampI ⌊H / 110⌋ 6 12).toNat
  let spacing := (H - 48) / ((count : Rat) - 1)
  (List.range count).map (fun i =>
    let m3 : Nat := i % 3
    { y := (jround (24 + (i : Rat) * spacing) : Rat),
      dir := if i % 2 = 0 then 1 else -1,
      speed := 28 + (m3 : Rat) * 8 })

/-- blobs per lane, blob-tracker.js line 80:
clamp(Math.floor(W / 480) + 2, 2, 4). -/
def perLaneCount (W : Rat) : Nat := (clampI (⌊W / 480⌋ + 2) 2 4).toNat

/-- tracked blob of blob-tracker.js (object literal of initBlobs line 93).
labelName indexes the label pool, labelPct is the percentage of pickLabel. -/
structure Blob where
  lane : Nat
  x : Rat
  y : Rat
  r : Rat
  ex : Rat
  speed : Rat
  sideRight : Bool
  id : Nat
  labelName : Nat
  labelPct : Int
  deriving DecidableEq

/-- generation of one blob (initBlobs lines 84-93 plus pickLabel lines
346-352).  rho is the ambient Math.random entropy stream, read at seven
consecutive positions starting at k; blob-tracker.js has no seeded RNG. -/
def genBlob (W shortS : Rat) (rho : Nat → Rat) (k : Nat) (lane : BLane) (li id : Nat) :
    Blob :=
  let speed := lane.speed * (4 / 5 + rho (k + 4) * (45 / 100)) * (lane.dir : Rat)
  { lane := li,
    x := rho (k + 2) * W,
    y := lane.y + (-6 + rho (k + 3) * 12),
    r := shortS * (18 / 1000) + rho k * (shortS * (35 / 1000) - shortS * (18 / 1000)),
    ex := 1 + rho (k + 1) * (1 / 2),
    speed := speed,
    sideRight := decide (0 < speed),
    id := id,
    labelName := (⌊rho (k + 5) * 4⌋).toNat,
    labelPct := ⌊80 + rho (k + 6) * 19⌋ }

/-- initBlobs of blob-tracker.js lines 76-96: perLane blobs per lane, ids
counted from 1, entropy consumed left to right at seven draws per blob. -/
def initBlobs (W H : Rat) (rho : Nat → Rat) : List Blob :=
  let lanes := makeLanesB H
  let per := perLaneCount W
  let shortS := min W H
  lanes.enum.flatMap (fun q =>
    (List.range per).map (fun k =>
      let m := q.1 * per + k
      genBlob W shortS rho (7 * m) q.2 q.1 (m + 1)))

/-- horizontal wraparound of blob-tracker.js lines 130-132: both wrap
targets are exactly -margin and W + margin with margin = 120. -/
def wrapXB (W speed x : Rat) : Rat :=
  let x2 := if 0 < speed ∧ W + 120 < x then -120 else x
  if speed < 0 ∧ x2 < -120 then W + 120 else x2

/-- one-blob kinematic update of drawFrame, blob-tracker.js lines 125-137,
with the sway input standing for Math.sin((x * 0.01) + id) * 10. -/
def blobUpdate (W dt sway : Rat) (lanes : List BLane) (b : Blob) : Blob :=
  let x1 := b.x + b.speed * dt
  let y1 := b.y + (sway * (1 / 4)) * dt
  let laneY := match lanes.get? b.lane with
    | some L => L.y
    | none => y1
  { b with x := wrapXB W b.speed x1, y := y1 + (laneY - y1) * (2 / 25) * dt }

/-- layoutEdgeLabel of blob-tracker.js lines 265-275 (minimum width 72
instead of 80, otherwise identical to the canvas variant). -/
def layoutEdgeLabelB (tw : Rat) (sideRight : Bool) (W H atY : Rat) : LabelBox :=
  let labelW := min (max (tw + 16) 72) (max 150 (W * (22 / 100)))
  { x := if sideRight then W - 12 - labelW else 12,
    y := (jround (clamp (atY - 11) 8 (H - 30)) : Rat),
    w := labelW, h := 22 }

/-- vertical center of the final label rectangle produced for a slot at atY,
lab.y + lab.h / 2 with the layout of layoutEdgeLabelB (the y computation is
independent of text width, side and viewport width). -/
def labelCenterY (H atY : Rat) : Rat := (layoutEdgeLabelB 0 false 0 H atY).y + 11

/-- insertion step of the by-x ordering used on the items of a lane
(computeLaneSlots line 314). -/
def insertByX (a : Blob) : List Blob → List Blob
  | [] => [a]
  | c :: rest => if a.x ≤ c.x then a :: c :: rest else c :: insertByX a rest

/-- sort of the items of a lane by x (computeLaneSlots line 314). -/
def sortByX : List Blob → List Blob
  | [] => []
  | a :: rest => insertByX a (sortByX rest)

/-- staggered slot y for index k among n same-lane labels, computeLaneSlots
lines 317-320: baseY + (k - (n - 1) / 2) * 24. -/
def slotYOf (baseY : Rat) (n k : Nat) : Rat :=
  baseY + ((k : Rat) - ((n : Rat) - 1) / 2) * 24

/-- assignment loop of computeLaneSlots lines 318-321, producing
(id, slot y, index) in item order, indices counted from k0. -/
def assignSlotsAux (baseY : Rat) (n : Nat) : Nat → List Blob → List (Nat × Rat × Nat)
  | _, [] => []
  | k0, b :: rest => (b.id, slotYOf baseY n k0, k0) :: assignSlotsAux baseY n (k0 + 1) rest

/-- slots of one lane, computeLaneSlots lines 302-330: collect the blobs of
lane li in list order, sort by x, then stagger around the lane center. -/
def laneSlots (blobs : List Blob) (lanes : List BLane) (li : Nat) :
    List (Nat × Rat × Nat) :=
  match lanes.get? li with
  | none => []
  | some L =>
    let items := sortByX (blobs.filter (fun b => b.lane = li))
    assignSlotsAux L.y items.length 0 items

/-- elbow x of the blob leader line, blob-tracker.js lines 180-183. -/
def blobMidX (W H atY tw : Rat) (b : Blob) : Rat :=
  let lab := layoutEdgeLabelB tw b.sideRight W H atY
  let attachX := if b.sideRight then lab.x else lab.x + lab.w
  if b.sideRight then max (b.x + 28) (attachX + 36)
  else min (b.x - 28) (attachX - 36)

/-- HUD entity of ai-bg-three.js (makeEntities lines 298-317); positions and
sizes are normalized to [0, 1], trail points carry the wall-clock stamp. -/
structure Entity3 where
  id : Nat
  cls : Nat
  conf : Rat
  x : Rat
  y : Rat
  w : Rat
  h : Rat
  vx : Rat
  vy : Rat
  life : Rat
  age : Rat
  trail : List (Rat × Rat × Rat)
  deriving DecidableEq

/-- JavaScript float remainder a % b for the nonnegative operands used by
stepEntities (age % 3000). -/
def jsMod (a b : Rat) : Rat := a - b * (⌊a / b⌋ : Rat)

/-- one-entity update of stepEntities, ai-bg-three.js lines 319-345,
threading the RNG: positional noise is drawn unconditionally (also when
dt = 0), bounce redraws confidence, hyper mode (trailsOn) occasionally
resizes the box and always appends a trail point stamped tNow. -/
def stepEntity3 (dt tNow : Rat) (trailsOn : Bool) (e : Entity3) (s : Nat) :
    Nat × Entity3 :=
  let dts := dt / 1000
  let age1 := e.age + dt
  let q1 := mulberryStep s
  let x1 := e.x + e.vx * dts + (q1.2 - 1 / 2) * (6 / 10000)
  let q2 := mulberryStep q1.1
  let y1 := e.y + e.vy * dts + (q2.2 - 1 / 2) * (6 / 10000)
  let px : Nat × Rat × Rat × Rat :=
    if x1 < 0 ∨ 1 < x1 then
      let q3 := mulberryStep q2.1
      (q3.1, -e.vx, clamp x1 (1 / 50) (49 / 50), 3 / 4 + q3.2 * (6 / 25))
    else (q2.1, e.vx, x1, e.conf)
  let py : Nat × Rat × Rat × Rat :=
    if y1 < 0 ∨ 1 < y1 then
      let q4 := mulberryStep px.1
      (q4.1, -e.vy, clamp y1 (1 / 50) (49 / 50), 3 / 4 + q4.2 * (6 / 25))
    else (px.1, e.vy, y1, px.2.2.2)
  let pz : Nat × Rat × Rat :=
    if trailsOn ∧ jsMod age1 3000 < dt then
      let q5 := mulberryStep py.1
      if q5.2 < 35 / 100 then
        let qw := mulberryStep q5.1
        let qh := mulberryStep qw.1
        (qh.1, clamp (e.w * (85 / 100 + qw.2 * (3 / 10))) (1 / 10) (8 / 25),
         clamp (e.h * (85 / 100 + qh.2 * (3 / 10))) (9 / 100) (3 / 10))
      else (q5.1, e.w, e.h)
    else (py.1, e.w, e.h)
  let trail1 :=
    if trailsOn then
      let t2 := e.trail ++ [(px.2.2.1, py.2.2.1, tNow)]
      if 14 < t2.length then t2.drop 1 else t2
    else e.trail
  (pz.1,
   { e with
     age := age1,
     x := px.2.2.1,
     y := py.2.2.1,
     vx := px.2.1,
     vy := py.2.1,
     conf := py.2.2.2,
     w := pz.2.1,
     h := pz.2.2,
     trail := trail1 })

/-- constant-zero oracle used to instantiate the abstract sine and text
measurement inputs in closed statements. -/
def zeroFun : Rat → Rat := fun _ => 0

/-- constant-zero text measurement for closed statements. -/
def zeroMeas : Entity → Rat := fun _ => 0

/-- constant-zero Math.random stream. -/
def rhoZero : Nat → Rat := fun _ => 0

/-- constant one-half Math.random stream. -/
def rhoHalf : Nat → Rat := fun _ => 1 / 2

theorem mbM32_eq_pow : M32 = 2 ^ 32 := by decide

theorem mulberry_mix_lt (s : Nat) :
    (let s1 := (s + mbDelta) % M32
     let t1 := ((s1 ^^^ (s1 >>> 15)) * (s1 ||| 1)) % M32
     let t2 := t1 ^^^ ((t1 + ((t1 ^^^ (t1 >>> 7)) * (t1 ||| 61)) % M32) % M32)
     t2 ^^^ (t2 >>> 14)) < M32 := by
  have hpos : 0 < M32 := by decide
  simp only []
  set s1 := (s + mbDelta) % M32 with hs1
  set t1 := ((s1 ^^^ (s1 >>> 15)) * (s1 ||| 1)) % M32 with ht1
  set a := ((t1 + ((t1 ^^^ (t1 >>> 7)) * (t1 ||| 61)) % M32) % M32) with ha
  have ht1lt : t1 < M32 := Nat.mod_lt _ hpos
  have halt : a < M32 := Nat.mod_lt _ hpos
  have ht2 : t1 ^^^ a < M32 := by
    rw [mbM32_eq_pow] at ht1lt halt ⊢
    exact Nat.xor_lt_two_pow ht1lt halt
  have hshift : (t1 ^^^ a) >>> 14 < M32 := by
    calc (t1 ^^^ a) >>> 14 ≤ t1 ^^^ a := by
          rw [Nat.shiftRight_eq_div_pow]
          exact Nat.div_le_self _ _
      _ < M32 := ht2
  rw [mbM32_eq_pow] at ht2 hshift ⊢
  exact Nat.xor_lt_two_pow ht2 hshift

theorem mulberryOut_nonneg (s : Nat) : 0 ≤ mulberryOut s := by
  unfold mulberryOut mulberryStep
  exact div_nonneg (Nat.cast_nonneg _) (Nat.cast_nonneg _)

theorem mulberryOut_lt_one (s : Nat) : mulberryOut s < 1 := by
  unfold mulberryOut mulberryStep
  simp only []
  rw [div_lt_one (by norm_num [M32])]
  exact_mod_cast mulberry_mix_lt s

/-- claim C7 (amended): every sample of the seeded mulberry32 generator lies
in the half-open interval [0, 1): it is never negative and never reaches 1.
The original claim additionally asserted the sample is never exactly 0,
which fails (see the counterexample). -/
theorem mulberry_range (s : Nat) : 0 ≤ mulberryOut s ∧ mulberryOut s < 1 :=
  ⟨mulberryOut_nonneg s, mulberryOut_lt_one s⟩

unseal Rat.add Rat.mul Rat.inv Rat.sub in
/-- claim C7, counterexample: with the uint32 seed 2463401483 the very first
call returns exactly 0, because 2463401483 + 0x6D2B79F5 = 2^32, so the
post-increment state collapses to 0 and every mixing stage maps 0 to 0.
This refutes the assertion that the generator never produces exactly 0. -/
theorem mulberry_zero_output : mulberryOut 2463401483 = 0 := by decide

set_option maxRecDepth 100000 in
unseal Rat.add Rat.mul Rat.inv Rat.sub in
/-- claim C6: with seed 0xA11A11 and a 1280 by 720 viewport, initEntities
produces exactly clamp(1280 * 720 / 50000, 18, 36) rounded = 18 entities,
and every generated bounding box lies fully inside the viewport. -/
theorem c6_concrete_scenario :
    (initEntities 0xA11A11 1280 720).2.length = 18 ∧
    ∀ e ∈ (initEntities 0xA11A11 1280 720).2,
      0 ≤ e.x ∧ e.x + e.w ≤ 1280 ∧ 0 ≤ e.y ∧ e.y + e.h ≤ 720 := by
  decide

theorem genEntitiesAux_length (W H shortS : Rat) :
    ∀ (n s i : Nat), (genEntitiesAux W H shortS s i n).2.length = n := by
  intro n
  induction n with
  | zero => intro s i; rfl
  | succ n ih => intro s i; simp [genEntitiesAux, ih]

theorem initEntities_length (s : Nat) (W H : Rat) :
    (initEntities s W H).2.length = entsCount W H :=
  genEntitiesAux_length W H (min W H) (entsCount W H) s 0

theorem entsCount_of_nonpos (W H : Rat) (hWH : W * H ≤ 0) : entsCount W H = 18 := by
  have hq : W * H / 50000 ≤ 0 := by
    rw [div_nonpos_iff]
    exact Or.inr ⟨hWH, by norm_num⟩
  unfold entsCount clamp
  rw [min_eq_right (le_trans hq (by norm_num)), max_eq_left (le_trans hq (by norm_num))]
  have h18 : jround 18 = 18 := by
    unfold jround
    rw [Int.floor_eq_iff]
    constructor <;> norm_num
  rw [h18]
  rfl

/-- claim C4 (amended): for a degenerate viewport (W * H ≤ 0, in particular
a zero width or height), initEntities still succeeds and returns the clamp
minimum of 18 entities, not an empty population; the embedding is a total
function, matching the absence of any thrown error. -/
theorem c4_degenerate_viewport (s : Nat) (W H : Rat) (hWH : W * H ≤ 0) :
    (initEntities s W H).2.length = 18 := by
  rw [initEntities_length, entsCount_of_nonpos W H hWH]

/-- claim C4, witness: the amended claim instantiated at seed 7 and a 0 by 9
viewport. -/
theorem c4_degenerate_viewport_witness :
    (0 : ℚ) * 9 ≤ 0 ∧ (initEntities 7 0 9).2.length = 18 :=
  ⟨by norm_num, c4_degenerate_viewport 7 0 9 (by norm_num)⟩

/-- claim C4, counterexample: at the zero viewport the generator returns 18
entities, refuting the claimed empty entity set. -/
theorem c4_empty_set_counterexample :
    ¬ ((initEntities 0xA11A11 0 0).2.length = 0) := by
  rw [initEntities_length, entsCount_of_nonpos 0 0 (by norm_num)]
  norm_num

/-- claim C8 (amended): the lane table produced by the resize handler is the
pure function makeLanes of the viewport, so a second invocation with the
same dimensions yields the same lane tables; the entity population however
is regenerated unconditionally on every invocation (see the
counterexample), the source has no aspect-ratio threshold. -/
theorem c8_lane_idempotence (W H : Rat) (st : ModState) :
    (resizeHandler W H (resizeHandler W H st)).lanesL = (resizeHandler W H st).lanesL ∧
    (resizeHandler W H (resizeHandler W H st)).lanesR = (resizeHandler W H st).lanesR ∧
    (resizeHandler W H st).lanesL = makeLanes H ∧
    (resizeHandler W H st).lanesR = makeLanes H := by
  have hL : ∀ s1 : ModState, (resizeHandler W H s1).lanesL = makeLanes H := by
    intro s1
    simp only [resizeHandler, sizeCanvases]
    split <;> rfl
  have hR : ∀ s1 : ModState, (resizeHandler W H s1).lanesR = makeLanes H := by
    intro s1
    simp only [resizeHandler, sizeCanvases]
    split <;> rfl
  exact ⟨(hL _).trans (hL _).symm, (hR _).trans (hR _).symm, hL st, hR st⟩

set_option maxRecDepth 400000 in
unseal Rat.add Rat.mul Rat.inv Rat.sub in
/-- claim C8, counterexample: starting from the freshly booted module state
(seed 0xA11A11, population generated by the initial sizeCanvases call at a
100 by 50 viewport), one invocation of the resize handler with the same
dimensions replaces every entity with fresh RNG draws: the population is
not preserved, refuting the no-regeneration part of the claim. -/
theorem c8_regeneration_counterexample :
    (resizeHandler 100 50 (sizeCanvases 100 50 bootState)).ents ≠
      (sizeCanvases 100 50 bootState).ents := by
  decide

theorem wrapX_bounds (W w vx x1 : Rat) (hW : 0 ≤ W) (hw : 0 ≤ w)
    (hlo : 0 ≤ vx → -(w + 100) ≤ x1) (hup : vx ≤ 0 → x1 ≤ W + 100) :
    -(w + 100) ≤ wrapX W w vx x1 ∧ wrapX W w vx x1 ≤ W + 100 := by
  simp only [wrapX]
  split_ifs with h1 h2 h2
  · exact ⟨by linarith, le_refl _⟩
  · exact ⟨by linarith, by linarith⟩
  · exact ⟨by linarith, le_refl _⟩
  · push_neg at h1 h2
    constructor
    · rcases le_or_lt 0 vx with hv | hv
      · exact hlo hv
      · have := h2 hv
        linarith
    · rcases le_or_lt vx 0 with hv | hv
      · exact hup hv
      · have := h1 hv
        linarith

theorem wrapY_bounds (H y1 : Rat) (hH : 0 ≤ H) :
    -100 ≤ wrapY H y1 ∧ wrapY H y1 ≤ H + 100 := by
  simp only [wrapY]
  split_ifs with h1 h2 h2
  · exact ⟨le_refl _, by linarith⟩
  · exact ⟨by linarith, le_refl _⟩
  · exact ⟨le_refl _, by linarith⟩
  · push_neg at h1 h2
    exact ⟨h1, h2⟩

theorem wrapXB_bounds (W speed x1 : Rat) (hW : 0 ≤ W)
    (hlo : 0 ≤ speed → -120 ≤ x1) (hup : speed ≤ 0 → x1 ≤ W + 120) :
    -120 ≤ wrapXB W speed x1 ∧ wrapXB W speed x1 ≤ W + 120 := by
  simp only [wrapXB]
  split_ifs with h1 h2 h2
  · exact ⟨by linarith, le_refl _⟩
  · exact ⟨le_refl _, by linarith⟩
  · exact ⟨by linarith, le_refl _⟩
  · push_neg at h1 h2
    constructor
    · rcases le_or_lt 0 speed with hv | hv
      · exact hlo hv
      · exact h2 hv
    · rcases le_or_lt speed 0 with hv | hv
      · exact hup hv
      · exact h1 hv

/-- claim C2 (amended): after one kinematic update, an ai-bg-canvas entity
satisfies -(w + margin) ≤ x ≤ W + margin (the rightward wrap target is
-w - 100, beyond the claimed -margin by the box width) and
-margin ≤ y ≤ H + margin with margin = 100; a blob-tracker blob satisfies
the claimed -margin ≤ x ≤ W + margin with margin = 120 (its wrap targets
are exactly the interval ends); blob-tracker applies no vertical wrap. -/
theorem c2_wrap_containment (W H dt sway u WB dtB swayB : Rat) (e : Entity) (b : Blob)
    (lanes : List BLane)
    (hW : 0 ≤ W) (hH : 0 ≤ H) (hdt : 0 ≤ dt) (hw : 0 ≤ e.w)
    (hxlo : -(e.w + 100) ≤ e.x) (hxhi : e.x ≤ W + 100)
    (hWB : 0 ≤ WB) (hdtB : 0 ≤ dtB) (hbxlo : -120 ≤ b.x) (hbxhi : b.x ≤ WB + 120) :
    (-(e.w + 100) ≤ (canvasUpdateEntity W H dt sway u e).x ∧
     (canvasUpdateEntity W H dt sway u e).x ≤ W + 100 ∧
     -100 ≤ (canvasUpdateEntity W H dt sway u e).y ∧
     (canvasUpdateEntity W H dt sway u e).y ≤ H + 100) ∧
    (-120 ≤ (blobUpdate WB dtB swayB lanes b).x ∧
     (blobUpdate WB dtB swayB lanes b).x ≤ WB + 120) := by
  have hx : (canvasUpdateEntity W H dt sway u e).x = wrapX W e.w e.vx (e.x + e.vx * dt) := rfl
  have hy : (canvasUpdateEntity W H dt sway u e).y
      = wrapY H (e.y + (e.vy + sway) * dt) := rfl
  have hbx : (blobUpdate WB dtB swayB lanes b).x
      = wrapXB WB b.speed (b.x + b.speed * dtB) := rfl
  have hcx := wrapX_bounds W e.w e.vx (e.x + e.vx * dt) hW hw
    (fun hv => by nlinarith) (fun hv => by nlinarith)
  have hcy := wrapY_bounds H (e.y + (e.vy + sway) * dt) hH
  have hcb := wrapXB_bounds WB b.speed (b.x + b.speed * dtB) hWB
    (fun hv => by nlinarith) (fun hv => by nlinarith)
  rw [hx, hy, hbx]
  exact ⟨⟨hcx.1, hcx.2, hcy.1, hcy.2⟩, hcb.1, hcb.2⟩

/-- entity fixture for the C2 witness. -/
def c2went : Entity :=
  { id := 1, kind := 2, x := 5, y := 3, w := 10, h := 10, vx := 2, vy := 0,
    conf := 4 / 5, sideRight := true, laneIndex := 0 }

/-- blob fixture for the C2 witness. -/
def c2wblob : Blob :=
  { lane := 0, x := 5, y := 3, r := 4, ex := 1, speed := 2, sideRight := true,
    id := 1, labelName := 0, labelPct := 80 }

unseal Rat.add Rat.mul Rat.inv Rat.sub in
/-- claim C2, witness: the amended containment instantiated at a concrete
entity, blob, viewport and time step. -/
theorem c2_wrap_containment_witness :
    (-(c2went.w + 100) ≤ (canvasUpdateEntity 1280 720 (1 / 20) 0 (1 / 2) c2went).x ∧
     (canvasUpdateEntity 1280 720 (1 / 20) 0 (1 / 2) c2went).x ≤ 1280 + 100 ∧
     -100 ≤ (canvasUpdateEntity 1280 720 (1 / 20) 0 (1 / 2) c2went).y ∧
     (canvasUpdateEntity 1280 720 (1 / 20) 0 (1 / 2) c2went).y ≤ 720 + 100) ∧
    (-120 ≤ (blobUpdate 1280 (1 / 20) 0 [] c2wblob).x ∧
     (blobUpdate 1280 (1 / 20) 0 [] c2wblob).x ≤ 1280 + 120) :=
  c2_wrap_containment 1280 720 (1 / 20) 0 (1 / 2) 1280 (1 / 20) 0 c2went c2wblob []
    (by norm_num) (by norm_num) (by norm_num) (by decide)
    (by decide) (by decide) (by norm_num) (by norm_num) (by decide) (by decide)

/-- entity fixture for the C2 counterexample: moving right, one step past
the wrap threshold. -/
def c2ent : Entity :=
  { id := 1, kind := 0, x := 1380, y := 0, w := 20, h := 10, vx := 50, vy := 0,
    conf := 4 / 5, sideRight := true, laneIndex := 0 }

unseal Rat.add Rat.mul Rat.inv Rat.sub in
/-- claim C2, counterexample: a rightward entity starting inside the claimed
band [-margin, W + margin] is wrapped to x = -w - margin = -120 < -100, so
the claimed lower bound -margin ≤ x fails immediately after the update
(ai-bg-canvas.js line 186). -/
theorem c2_wrap_counterexample :
    (-100 ≤ c2ent.x ∧ c2ent.x ≤ 1280 + 100) ∧
    ¬ (-100 ≤ (canvasUpdateEntity 1280 720 (1 / 20) 0 (1 / 2) c2ent).x) := by
  decide

/-- claim C5 (amended): the elbow x always clears the anchor (the box
center) by at least 24 px toward the label side, and it lies strictly
outside the bounding box on the label side whenever the box is narrower
than 48 px; for wider boxes the elbow can fall inside the box (see the
counterexample). -/
theorem c5_elbow_outside (W H laneY tw : Rat) (e : Entity) (hw : e.w < 48) :
    (e.sideRight = false → canvasMidX W H laneY tw e < e.x) ∧
    (e.sideRight = true → e.x + e.w < canvasMidX W H laneY tw e) := by
  constructor
  · intro hside
    have hmin : canvasMidX W H laneY tw e ≤ e.x + e.w * (1 / 2) - 24 := by
      simp only [canvasMidX, hside]
      exact min_le_left _ _
    linarith
  · intro hside
    have hmax : e.x + e.w * (1 / 2) + 24 ≤ canvasMidX W H laneY tw e := by
      simp only [canvasMidX, hside]
      exact le_max_left _ _
    linarith

/-- entity fixture for the C5 witness: a 30 px wide box with a left label. -/
def c5wit : Entity :=
  { id := 1, kind := 0, x := 600, y := 300, w := 30, h := 20, vx := -40, vy := 0,
    conf := 4 / 5, sideRight := false, laneIndex := 0 }

/-- claim C5, witness: the amended statement instantiated at a concrete
narrow entity. -/
theorem c5_elbow_outside_witness :
    c5wit.w < 48 ∧ (c5wit.sideRight = false → canvasMidX 1280 720 100 45 c5wit < c5wit.x) :=
  ⟨by decide, (c5_elbow_outside 1280 720 100 45 c5wit (by decide)).1⟩

/-- entity fixture for the C5 counterexample: a 100 px wide car close to the
left gutter. -/
def c5ent : Entity :=
  { id := 1, kind := 0, x := 10, y := 300, w := 100, h := 40, vx := -40, vy := 0,
    conf := 4 / 5, sideRight := false, laneIndex := 0 }

unseal Rat.add Rat.mul Rat.inv Rat.sub in
/-- claim C5, counterexample: for a left-side label of a 100 px wide box at
x = 10 (viewport 1280 by 720, measured text width 45), the elbow lands at
min(10 + 50 - 24, 92 - 32) = 36, which is not strictly left of the box edge
10 but inside the box interval [10, 110]: the leader overlaps the box. -/
theorem c5_elbow_counterexample :
    ¬ (canvasMidX 1280 720 100 45 c5ent < c5ent.x) ∧
    c5ent.x ≤ canvasMidX 1280 720 100 45 c5ent ∧
    canvasMidX 1280 720 100 45 c5ent ≤ c5ent.x + c5ent.w := by
  decide

theorem assignSlotsAux_get (baseY : Rat) (n : Nat) :
    ∀ (items : List Blob) (k0 j : Nat) (h : j < (assignSlotsAux baseY n k0 items).length),
      ((assignSlotsAux baseY n k0 items).get ⟨j, h⟩).2.1 = slotYOf baseY n (k0 + j) := by
  intro items
  induction items with
  | nil => intro k0 j h; simp [assignSlotsAux] at h
  | cons b rest ih =>
    intro k0 j h
    cases j with
    | zero => simp [assignSlotsAux]
    | succ j =>
      have hrec := ih (k0 + 1) j (by simpa [assignSlotsAux] using h)
      simp only [assignSlotsAux, List.get_cons_succ]
      rw [hrec]
      congr 1
      omega

theorem slotYOf_separation (baseY : Rat) (n k l : Nat) (hne : k ≠ l) :
    22 ≤ |slotYOf baseY n k - slotYOf baseY n l| := by
  have hd : slotYOf baseY n k - slotYOf baseY n l = ((k : ℚ) - (l : ℚ)) * 24 := by
    unfold slotYOf
    ring
  have hz : ((k : ℤ) - (l : ℤ)) ≠ 0 := sub_ne_zero.mpr (by exact_mod_cast hne)
  have h2 : (1 : ℤ) ≤ |(k : ℤ) - (l : ℤ)| := Int.one_le_abs hz
  have h1 : (1 : ℚ) ≤ |(k : ℚ) - (l : ℚ)| := by
    calc (1 : ℚ) ≤ ((|(k : ℤ) - (l : ℤ)| : ℤ) : ℚ) := by exact_mod_cast h2
      _ = |(k : ℚ) - (l : ℚ)| := by push_cast [Int.cast_abs]; ring_nf
  rw [hd, abs_mul]
  have h24 : |(24 : ℚ)| = 24 := by norm_num
  rw [h24]
  nlinarith [h1]

/-- claim C1 (amended): within one lane, the unclamped slot y values handed
out by computeLaneSlots to distinct item indices are pairwise at least the
24 px stagger step apart, hence at least the 22 px label height apart.  The
original claim extended this to the final label rectangles after the
vertical clamping of layoutEdgeLabel, which fails near the viewport edges
(see the counterexample). -/
theorem c1_slot_separation (blobs : List Blob) (lanes : List BLane) (li k l : Nat)
    (hk : k < (laneSlots blobs lanes li).length)
    (hl : l < (laneSlots blobs lanes li).length) (hne : k ≠ l) :
    22 ≤ |((laneSlots blobs lanes li).get ⟨k, hk⟩).2.1 -
          ((laneSlots blobs lanes li).get ⟨l, hl⟩).2.1| := by
  revert hk hl
  unfold laneSlots
  rcases lanes.get? li with _ | L
  · intro hk hl
    simp at hk
  · intro hk hl
    rw [assignSlotsAux_get, assignSlotsAux_get]
    simpa using slotYOf_separation L.y _ k l hne

/-- blob fixture list for the C1 witness: two blobs sharing lane 2. -/
def c1wblobs : List Blob :=
  [{ lane := 2, x := 100, y := 293, r := 20, ex := 1, speed := 30, sideRight := true,
     id := 1, labelName := 0, labelPct := 90 },
   { lane := 2, x := 400, y := 293, r := 20, ex := 1, speed := 30, sideRight := true,
     id := 2, labelName := 1, labelPct := 85 }]

unseal Rat.add Rat.mul Rat.inv Rat.sub in
/-- claim C1, witness: the amended separation instantiated for the two
blobs of lane 2 in a 720 px tall viewport. -/
theorem c1_slot_separation_witness :
    22 ≤ |((laneSlots c1wblobs (makeLanesB 720) 2).get ⟨0, by decide⟩).2.1 -
          ((laneSlots c1wblobs (makeLanesB 720) 2).get ⟨1, by decide⟩).2.1| :=
  c1_slot_separation c1wblobs (makeLanesB 720) 2 0 1 (by decide) (by decide) (by decide)

/-- blob fixture list for the C1 counterexample: the four blobs that a
1280 px wide viewport puts into the topmost lane (lane 0, y = 24). -/
def c1blobs : List Blob :=
  [{ lane := 0, x := 100, y := 24, r := 20, ex := 1, speed := 30, sideRight := true,
     id := 1, labelName := 0, labelPct := 90 },
   { lane := 0, x := 200, y := 24, r := 20, ex := 1, speed := 30, sideRight := true,
     id := 2, labelName := 1, labelPct := 85 },
   { lane := 0, x := 300, y := 24, r := 20, ex := 1, speed := 30, sideRight := true,
     id := 3, labelName := 2, labelPct := 88 },
   { lane := 0, x := 400, y := 24, r := 20, ex := 1, speed := 30, sideRight := true,
     id := 4, labelName := 3, labelPct := 92 }]

unseal Rat.add Rat.mul Rat.inv Rat.sub in
/-- claim C1, counterexample: for four same-lane blobs in the topmost lane
of a 720 px tall viewport, the final label y centers after the vertical
clamping of layoutEdgeLabel are 19, 19, 36, 60: the first two coincide, so
the claimed pairwise 22 px separation of the final rectangles fails. -/
theorem c1_label_overlap_counterexample :
    (laneSlots c1blobs (makeLanesB 720) 0).map (fun p => labelCenterY 720 p.2.1) =
      [19, 19, 36, 60] ∧
    ¬ (22 ≤ |(19 : ℚ) - 19|) := by
  decide

/-- claim C9 (amended): the dt = 0 paused frame of ai-bg-canvas leaves the
entity state (positions, confidence, RNG) entirely unchanged; in
ai-bg-three a dt = 0 static frame leaves ages unchanged and, outside hyper
mode, trails unchanged, but it still perturbs positions with per-call RNG
noise (see the counterexample). -/
theorem c9_paused_frame :
    (∀ (W H : Rat) (sinQ : Rat → Rat) (st : CState), canvasFrameKin W H 0 sinQ st = st) ∧
    (∀ (tNow : Rat) (trailsOn : Bool) (e : Entity3) (s : Nat),
      (stepEntity3 0 tNow trailsOn e s).2.age = e.age) ∧
    (∀ (tNow : Rat) (e : Entity3) (s : Nat),
      (stepEntity3 0 tNow false e s).2.trail = e.trail) := by
  refine ⟨?_, ?_, ?_⟩
  · intro W H sinQ st
    simp [canvasFrameKin]
  · intro tNow trailsOn e s
    show e.age + 0 = e.age
    exact add_zero e.age
  · intro tNow e s
    rfl

/-- entity fixture for the C9 counterexample: at the center of the
normalized viewport with zero velocity. -/
def c9ent : Entity3 :=
  { id := 1, cls := 0, conf := 4 / 5, x := 1 / 2, y := 1 / 2, w := 1 / 5, h := 1 / 5,
    vx := 0, vy := 0, life := 6000, age := 0, trail := [] }

unseal Rat.add Rat.mul Rat.inv Rat.sub in
/-- claim C9, counterexample: the static frame of ai-bg-three runs
stepEntities with dt = 0, which still adds (rng() - 0.5) * 0.0006 to each
coordinate and, in hyper mode, appends a trail point: position and trail
are not unchanged, refuting the claim for this variant. -/
theorem c9_static_frame_counterexample :
    (stepEntity3 0 0 false c9ent 0).2.x ≠ c9ent.x ∧
    (stepEntity3 0 0 true c9ent 0).2.trail ≠ c9ent.trail := by
  decide

/-- claim C3 (amended): the ai-bg-canvas pipeline (entity generation,
kinematic update, lane assignment and label layout) draws every random
value from the single seeded mulberry32 stream, so it is a pure function of
the seed, the viewport, the dt sequence and the fixed host oracles
(sine and text measurement): two runs with equal inputs produce equal
entity states and label layouts at every frame.  blob-tracker is excluded:
its generation reads the unseeded Math.random stream (see the
counterexample). -/
theorem c3_canvas_determinism (sinQ : Rat → Rat) (meas : Entity → Rat) (seed : Nat)
    (W H : Rat) (dts : List Rat) (o1 o2 : List (List Entity × List LabelBox))
    (h1 : o1 = runCanvas sinQ meas seed W H dts)
    (h2 : o2 = runCanvas sinQ meas seed W H dts) : o1 = o2 :=
  h1.trans h2.symm

/-- claim C3, witness: two runs of the seeded pipeline at seed 1, a 100 by
50 viewport and one 16 ms frame agree. -/
theorem c3_canvas_determinism_witness :
    runCanvas zeroFun zeroMeas 1 100 50 [2 / 125] =
      runCanvas zeroFun zeroMeas 1 100 50 [2 / 125] :=
  c3_canvas_determinism zeroFun zeroMeas 1 100 50 [2 / 125] _ _ rfl rfl

set_option maxRecDepth 400000 in
unseal Rat.add Rat.mul Rat.inv Rat.sub in
/-- claim C3, counterexample: blob-tracker generation is a function of the
ambient Math.random entropy stream, for which no seed exists: two runs over
different streams (all-zero against all-one-half) produce different blob
populations at the same 1280 by 720 viewport, so the blob-tracker part of
the pipeline is not reproducible from any fixed seed. -/
theorem c3_blob_nondeterminism_counterexample :
    initBlobs 1280 720 rhoZero ≠ initBlobs 1280 720 rhoHalf := by
  decide

theorem bumpUsed_length : ∀ (ls : List Lane) (i : Nat), (bumpUsed ls i).length = ls.length := by
  intro ls
  induction ls with
  | nil => intro i; rfl
  | cons L rest ih =>
    intro i
    cases i with
    | zero => rfl
    | succ n => simp [bumpUsed, ih]

theorem resetUsed_length (ls : List Lane) : (resetUsed ls).length = ls.length := by
  simp [resetUsed]

theorem nearestLaneAux_lt (y : Rat) :
    ∀ (ls : List Lane) (i best : Nat) (bd : Option Rat) (N : Nat),
      best < N → i + ls.length ≤ N → nearestLaneAux y ls i best bd < N := by
  intro ls
  induction ls with
  | nil =>
    intro i best bd N hb _
    simpa [nearestLaneAux] using hb
  | cons L rest ih =>
    intro i best bd N hb hlen
    simp only [List.length_cons] at hlen
    simp only [nearestLaneAux]
    split
    · exact ih (i + 1) i _ N (by omega) (by omega)
    · exact ih (i + 1) best bd N hb (by omega)

theorem nearestLaneIndex_lt (set : List Lane) (y : Rat) (h : 0 < set.length) :
    nearestLaneIndex set y < set.length :=
  nearestLaneAux_lt y set 0 0 none set.length h (by simp)

theorem assignOne_lt (e : Entity) (set : List Lane) (h : 0 < set.length) :
    assignOne e set < set.length := by
  unfold assignOne
  split_ifs with h1
  · exact nearestLaneIndex_lt set e.y h
  · push_neg at h1
    rcases hG : set.get? e.laneIndex.toNat with _ | L
    · show e.laneIndex.toNat < set.length
      omega
    · show (if 1 < L.used then nearestLaneIndex set e.y else e.laneIndex.toNat) < set.length
      split_ifs with h2
      · exact nearestLaneIndex_lt set e.y h
      · omega

theorem assignLanesAux_valid :
    ∀ (ents : List Entity) (lL lR : List Lane), 0 < lL.length → 0 < lR.length →
      ∀ e1 ∈ (assignLanesAux ents lL lR).1,
        0 ≤ e1.laneIndex ∧
        e1.laneIndex.toNat < (if e1.sideRight then lR.length else lL.length) := by
  intro ents
  induction ents with
  | nil =>
    intro lL lR hL hR e1 he1
    simp [assignLanesAux] at he1
  | cons e rest ih =>
    intro lL lR hL hR e1 he1
    by_cases hs : e.sideRight
    · simp only [assignLanesAux, hs, if_true] at he1
      rcases List.mem_cons.mp he1 with rfl | hmem
      · refine ⟨Int.natCast_nonneg _, ?_⟩
        have hlt := assignOne_lt e lR hR
        simpa [hs, Int.toNat_natCast] using hlt
      · have hrec := ih lL (bumpUsed lR (assignOne e lR)) hL
          (by rw [bumpUsed_length]; exact hR) e1 hmem
        rwa [bumpUsed_length] at hrec
    · simp only [assignLanesAux, hs, if_false, Bool.false_eq_true] at he1
      rcases List.mem_cons.mp he1 with rfl | hmem
      · refine ⟨Int.natCast_nonneg _, ?_⟩
        have hlt := assignOne_lt e lL hL
        simpa [hs, Int.toNat_natCast] using hlt
      · have hrec := ih (bumpUsed lL (assignOne e lL)) lR
          (by rw [bumpUsed_length]; exact hL) hR e1 hmem
        rwa [bumpUsed_length] at hrec

/-- claim C10: after assignLanes, every entity carries a laneIndex that is a
valid index into the lane table of its side (nonnegative and below the table
length), so the nearest-lane fallback of the draw loop is unreachable for a
nonempty lane table. -/
theorem c10_lane_index_valid (ents : List Entity) (lL lR : List Lane)
    (hL : 0 < lL.length) (hR : 0 < lR.length) :
    ∀ e1 ∈ (assignLanes ents lL lR).1,
      0 ≤ e1.laneIndex ∧
      e1.laneIndex.toNat < (if e1.sideRight then lR.length else lL.length) := by
  intro e1 he1
  unfold assignLanes at he1
  have hrec := assignLanesAux_valid ents (resetUsed lL) (resetUsed lR)
    (by rw [resetUsed_length]; exact hL) (by rw [resetUsed_length]; exact hR) e1 he1
  rwa [resetUsed_length, resetUsed_length] at hrec

/-- entity fixture for the C10 witness, with the unassigned laneIndex -1. -/
def c10ent : Entity :=
  { id := 1, kind := 0, x := 0, y := 0, w := 1, h := 1, vx := 1, vy := 0,
    conf := 4 / 5, sideRight := true, laneIndex := -1 }

/-- lane fixture for the C10 witness. -/
def c10lane : Lane := { y := 18, used := 0 }

/-- entity produced by assignLanes for the C10 witness fixture: the stale
index -1 is replaced by the nearest lane, index 0. -/
def c10assigned : Entity := { c10ent with laneIndex := 0 }

unseal Rat.add Rat.mul Rat.inv Rat.sub in
/-- claim C10, witness: the validity statement instantiated at a singleton
entity list and singleton lane tables, applied to the assigned entity. -/
theorem c10_lane_index_valid_witness :
    0 ≤ c10assigned.laneIndex ∧
    c10assigned.laneIndex.toNat <
      (if c10assigned.sideRight then [c10lane].length else [c10lane].length) :=
  c10_lane_index_valid [c10ent] [c10lane] [c10lane] (by decide) (by decide)
    c10assigned (by decide)

end Spec2Proof
